import Mathlib

/-!
Shallow embedding of the introspectardio program (src/src/lib.rs), a two-asset
fixed-rate swap program. Account identities (32-byte public keys) are modelled
as lists of byte values (`List Nat`, entries intended below 256); account data
and instruction payloads are likewise byte lists. Multi-byte integers are
assembled little-endian with an explicit reduction modulo 256 per byte, so a
64-bit read always yields a value below 2 ^ 64 and a 128-bit read a value
below 2 ^ 128, exactly as the machine reads do. Fallible operations return
`Except ProgramError`; the external calls the program issues (account
creation, token transfers) are modelled as effect records returned on
success, since an error return means the enclosing transaction aborts with no
effect.
-/

deriving instance DecidableEq for Except

set_option maxRecDepth 10000

namespace Introspectardio

/-- A 32-byte account identity, modelled as its list of byte values. -/
abbrev Pubkey := List Nat

/-- The program's own identity: `pub const ID: Pubkey = [5; 32]`. -/
def ID : Pubkey := List.replicate 32 5

/-- The token service identity, the base58 decoding of
TokenkegQfeZyiNwAJbNbGKPFXCWuBvf9Ss623VQ5DA as in the source constant. -/
def TOKEN_PROGRAM : Pubkey :=
  [6, 221, 246, 225, 215, 101, 161, 147, 217, 203, 225, 70, 206, 235, 121,
   172, 28, 180, 133, 237, 95, 91, 55, 145, 58, 140, 245, 133, 126, 255, 0,
   169]

/-- Errors of the host platform used by the program (`ProgramError`). -/
inductive ProgramError where
  | InvalidInstructionData
  | NotEnoughAccountKeys
  | InvalidAccountData
  | InvalidSeeds
  | IncorrectProgramId
  | Custom (code : Nat)
deriving DecidableEq

/-- The program's own error enum (`IntrospectardioError`, `#[repr(u32)]`). -/
inductive IntrospectardioError where
  | PrevIxNotTokenProgram
  | UnexpectedTokenProgramDataLen
  | UnexpectedTokenProgramIx
  | UnexpectedTransferDest
  | LargeOrder
deriving DecidableEq

/-- Discriminant of each variant, per the `#[repr(u32)]` declaration order. -/
def IntrospectardioError.toCode : IntrospectardioError → Nat
  | .PrevIxNotTokenProgram => 0
  | .UnexpectedTokenProgramDataLen => 1
  | .UnexpectedTokenProgramIx => 2
  | .UnexpectedTransferDest => 3
  | .LargeOrder => 4

/-- The `From<IntrospectardioError> for ProgramError` conversion:
`ProgramError::Custom(value as u32)`. -/
def IntrospectardioError.toProgramError (e : IntrospectardioError) : ProgramError :=
  .Custom e.toCode

/-- Little-endian byte-list decoding; each entry is reduced modulo 256 as a
byte read from memory is. `read_unaligned::<u64>` on 8 bytes is
`leBytesToNat` of those 8 bytes. -/
def leBytesToNat : List Nat → Nat
  | [] => 0
  | b :: rest => b % 256 + 256 * leBytesToNat rest

/-- Little-endian encoding of a value into a fixed number of bytes. -/
def natToLeBytes : Nat → Nat → List Nat
  | 0, _ => []
  | n + 1, v => v % 256 :: natToLeBytes n (v / 256)

/-- Round a size up to a multiple of an alignment, as C layout does. -/
def roundUpTo (n a : Nat) : Nat := (n + a - 1) / a * a

/-- End offset of a `repr(C)` field sequence, fields given as
(size, alignment) pairs laid out in declaration order. -/
def reprCEnd : Nat → List (Nat × Nat) → Nat
  | off, [] => off
  | off, (sz, al) :: rest => reprCEnd (roundUpTo off al + sz) rest

/-- Alignment of a `repr(C)` struct: the maximum field alignment. -/
def reprCAlign (fields : List (Nat × Nat)) : Nat :=
  fields.foldl (fun a f => max a f.2) 1

/-- Size of a `repr(C)` struct: the end offset of its fields rounded up to
the struct alignment, which is what `core::mem::size_of` returns. -/
def reprCSize (fields : List (Nat × Nat)) : Nat :=
  roundUpTo (reprCEnd 0 fields) (reprCAlign fields)

/-- The `Pool` record as a value: a 128-bit rate, two 32-byte vault
identities, and the 65-byte seed material `[mint_a(32), mint_b(32), bump(1)]`. -/
structure PoolRec where
  usdc_atoms_per_sol : Nat
  vault_a : Pubkey
  vault_b : Pubkey
  pool_seeds : List Nat
deriving DecidableEq

namespace Pool

/-- Field (size, alignment) pairs of the `#[repr(C)]` struct `Pool` in
declaration order: `U128` is two 64-bit words (size 16, alignment 8), the two
vault keys are 32 bytes of alignment 1, and `pool_seeds` is 65 bytes of
alignment 1. -/
def fields : List (Nat × Nat) := [(16, 8), (32, 1), (32, 1), (65, 1)]

/-- `Pool::LEN = core::mem::size_of::<Pool>()`, computed by the `repr(C)`
layout rules on the declared fields. -/
def LEN : Nat := reprCSize fields

/-- `Pool::from_account`: fails with `InvalidAccountData` when the stored
byte length is below `LEN`, otherwise reinterprets the bytes at the
`repr(C)` field offsets 0 (rate, 16 bytes little-endian), 16 (vault_a),
48 (vault_b) and 80 (pool_seeds, 65 bytes). -/
def from_account (data : List Nat) : Except ProgramError PoolRec :=
  if data.length < LEN then .error .InvalidAccountData
  else .ok
    { usdc_atoms_per_sol := leBytesToNat (data.take 16)
      vault_a := (data.drop 16).take 32
      vault_b := (data.drop 48).take 32
      pool_seeds := (data.drop 80).take 65 }

/-- `Pool::from_account_mut`: identical length check and layout as
`from_account`, returning the exclusive view of the same record. -/
def from_account_mut (data : List Nat) : Except ProgramError PoolRec :=
  if data.length < LEN then .error .InvalidAccountData
  else .ok
    { usdc_atoms_per_sol := leBytesToNat (data.take 16)
      vault_a := (data.drop 16).take 32
      vault_b := (data.drop 48).take 32
      pool_seeds := (data.drop 80).take 65 }

end Pool

/-- The byte image of a `Pool` record as laid out in the account: the fields
at their `repr(C)` offsets followed by the 7 bytes of trailing padding that
the freshly created zeroed account leaves untouched. -/
def PoolRec.toBytes (p : PoolRec) : List Nat :=
  natToLeBytes 16 p.usdc_atoms_per_sol ++ p.vault_a ++ p.vault_b ++
    p.pool_seeds ++ List.replicate 7 0

/-- One instruction of the enclosing transaction as exposed by the
introspection register: target program, ordered account identities, raw
payload bytes. -/
structure IntrospectedInstruction where
  program_id : Pubkey
  accounts : List Pubkey
  data : List Nat
deriving DecidableEq

/-- Placeholder instruction returned by an unchecked out-of-range read. -/
def dummyInstruction : IntrospectedInstruction :=
  { program_id := [], accounts := [], data := [] }

/-- The instruction-introspection register: the index of the currently
executing instruction and the ordered instruction list of the transaction. -/
structure Instructions where
  current_index : Nat
  list : List IntrospectedInstruction
deriving DecidableEq

/-- Checked instruction lookup (`load_instruction_at`): errors when the
index is outside the transaction's instruction list. -/
def Instructions.load_instruction_at (s : Instructions) (i : Nat) :
    Except ProgramError IntrospectedInstruction :=
  match s.list.get? i with
  | some ix => .ok ix
  | none => .error .InvalidInstructionData

/-- Unchecked instruction lookup (`deserialize_instruction_unchecked`); the
register is well formed when the current index is in range, in which case
this agrees with the checked lookup. -/
def Instructions.deserialize_instruction_unchecked (s : Instructions) (i : Nat) :
    IntrospectedInstruction :=
  (s.list.get? i).getD dummyInstruction

/-- An account passed to the program: its identity and its stored bytes. -/
structure AccountInfo where
  key : Pubkey
  data : List Nat
deriving DecidableEq

/-- The token-service transfer the swap path invokes on success: source and
destination token accounts, the authorizing identity, the amount, and the
signer seeds presented for the derived authority. -/
structure TransferEffect where
  source : Pubkey
  dest : Pubkey
  authority : Pubkey
  amount : Nat
  signer_seeds : List (List Nat)
deriving DecidableEq

/-- The token service's transfer opcode, first payload byte 3. -/
def TRANSFER_DISC : Nat := 3

/-- `validate_prev_ix`: authenticates the instruction preceding the swap.
Rejects when its target program is not the token service, when its payload
is shorter than 9 bytes, when its first payload byte is not the transfer
opcode, or when the account at its destination position (index 1) is not
the pool's base vault; on success returns payload bytes 1 to 8 decoded as a
little-endian 64-bit amount. -/
def validate_prev_ix (prev_ix : IntrospectedInstruction) (pool_vault_in : Pubkey) :
    Except ProgramError Nat :=
  if prev_ix.program_id ≠ TOKEN_PROGRAM then
    .error IntrospectardioError.PrevIxNotTokenProgram.toProgramError
  else if prev_ix.data.length < 9 then
    .error IntrospectardioError.UnexpectedTokenProgramDataLen.toProgramError
  else if prev_ix.data.getD 0 0 ≠ TRANSFER_DISC then
    .error IntrospectardioError.UnexpectedTokenProgramIx.toProgramError
  else if prev_ix.accounts.getD 1 [] ≠ pool_vault_in then
    .error IntrospectardioError.UnexpectedTransferDest.toProgramError
  else
    .ok (leBytesToNat ((prev_ix.data.drop 1).take 8))

/-- `U128::checked_mul` on two values already below 2 ^ 128: the exact
product when it fits in 128 bits, `none` on overflow. -/
def u128_checked_mul (a b : Nat) : Option Nat :=
  if a * b < 2 ^ 128 then some (a * b) else none

/-- `u64::try_from` on a 128-bit value: the value when it fits in 64 bits. -/
def u64_try_from (x : Nat) : Option Nat :=
  if x < 2 ^ 64 then some x else none

/-- `process_swap`: expects exactly 7 accounts; reads the pool record,
checks the supplied vaults against the stored identities, rejects at
transaction position 0, rejects when the current instruction's declared
target is not this program, validates the preceding instruction to obtain
the input amount, converts it through the fixed-point rate, and on success
invokes the transfer of the output amount from the quote vault to the
destination, signed with the seeds reconstructed from the stored
`pool_seeds` (bytes 0 to 31, 32 to 63, and 64). -/
def process_swap (accounts : List AccountInfo) (instruction_sysvar : Instructions) :
    Except ProgramError TransferEffect :=
  match accounts with
  | [_payer, pool, user_out, pool_vault_a, pool_vault_b, _ix_sysvar, _token_program] =>
    match Pool.from_account pool.data with
    | .error e => .error e
    | .ok pool_data =>
      if pool_vault_a.key ≠ pool_data.vault_a then .error .InvalidSeeds
      else if pool_vault_b.key ≠ pool_data.vault_b then .error .InvalidSeeds
      else
        let cur_idx := instruction_sysvar.current_index
        if cur_idx = 0 then
          .error IntrospectardioError.PrevIxNotTokenProgram.toProgramError
        else
          let prev_idx := cur_idx - 1
          let curr_ixn := instruction_sysvar.deserialize_instruction_unchecked cur_idx
          if curr_ixn.program_id ≠ ID then .error .IncorrectProgramId
          else
            match instruction_sysvar.load_instruction_at prev_idx with
            | .error e => .error e
            | .ok prev_ix =>
              match validate_prev_ix prev_ix pool_vault_a.key with
              | .error e => .error e
              | .ok amount_in =>
                match ((u128_checked_mul amount_in pool_data.usdc_atoms_per_sol).map
                    (fun x => x / 1000000000)).map u64_try_from with
                | some (some amount_out) =>
                  .ok { source := pool_vault_b.key
                        dest := user_out.key
                        authority := pool.key
                        amount := amount_out
                        signer_seeds := [pool_data.pool_seeds.take 32,
                          (pool_data.pool_seeds.drop 32).take 32,
                          (pool_data.pool_seeds.drop 64).take 1] }
                | _ => .error IntrospectardioError.LargeOrder.toProgramError
  | _ => .error .NotEnoughAccountKeys

/-- Size of a token-service custody account (`TokenAccount::LEN`). -/
def TokenAccountLEN : Nat := 165

/-- One account-creation request issued to the account-creation service
(`create_account_with_minimum_balance_signed`): the new account, its byte
size, its owner program, the funding account, and the signer seeds of the
derived authority that signs the creation. -/
structure CreateAccount where
  new_account : Pubkey
  space : Nat
  owner : Pubkey
  funder : Pubkey
  signer_seeds : List (List Nat)
deriving DecidableEq

/-- One `InitializeAccount3` invocation on the token service: the custody
account, its mint, and the identity installed as custody owner. -/
structure InitTokenAccount where
  account : Pubkey
  mint : Pubkey
  owner : Pubkey
deriving DecidableEq

/-- Everything a successful `process_init` does, in order: create the pool
account, write the pool record through the exclusive borrow, create and
initialize vault A, create and initialize vault B. -/
structure InitEffect where
  create_pool : CreateAccount
  pool_record : PoolRec
  create_vault_a : CreateAccount
  init_vault_a : InitTokenAccount
  create_vault_b : CreateAccount
  init_vault_b : InitTokenAccount
deriving DecidableEq

/-- `process_init`, parameterized by the platform's two-seed address
derivation `fpa` (`find_program_address` with this program's identity, both
call sites passing exactly two 32-byte seeds), which returns the derived
address and its bump byte. Expects exactly 8 accounts and at least 8 payload
bytes (the little-endian 64-bit rate); re-derives the pool identity from the
two mints and each vault identity from (pool, mint), rejecting any mismatch
with `InvalidSeeds` before anything is created or written; then creates the
pool account at `Pool.LEN` bytes owned by this program, writes the record
(the rate zero-extended to 128 bits, the two vault identities, and
`pool_seeds` = mint_a key, mint_b key, pool bump), and creates and
initializes the two vaults with the pool as custody owner. -/
def process_init (fpa : Pubkey → Pubkey → Pubkey × Nat)
    (accounts : List AccountInfo) (data : List Nat) :
    Except ProgramError InitEffect :=
  match accounts with
  | [payer, pool, vault_a, vault_b, mint_a, mint_b, _system_program, _token_program] =>
    if data.length < 8 then .error .InvalidInstructionData
    else
      let usdc_atoms_per_sol := leBytesToNat (data.take 8)
      let expectedPool := fpa mint_a.key mint_b.key
      if pool.key ≠ expectedPool.1 then .error .InvalidSeeds
      else
        let expectedVaultA := fpa pool.key mint_a.key
        let expectedVaultB := fpa pool.key mint_b.key
        if vault_a.key ≠ expectedVaultA.1 then .error .InvalidSeeds
        else if vault_b.key ≠ expectedVaultB.1 then .error .InvalidSeeds
        else
          let bump_pool := expectedPool.2
          let seeds_pool := [mint_a.key, mint_b.key, [bump_pool]]
          let seeds_a := [pool.key, mint_a.key, [expectedVaultA.2]]
          let seeds_b := [pool.key, mint_b.key, [expectedVaultB.2]]
          .ok
            { create_pool :=
                { new_account := pool.key, space := Pool.LEN, owner := ID
                  funder := payer.key, signer_seeds := seeds_pool }
              pool_record :=
                { usdc_atoms_per_sol := usdc_atoms_per_sol
                  vault_a := vault_a.key
                  vault_b := vault_b.key
                  pool_seeds := mint_a.key ++ mint_b.key ++ [bump_pool] }
              create_vault_a :=
                { new_account := vault_a.key, space := TokenAccountLEN
                  owner := TOKEN_PROGRAM, funder := payer.key
                  signer_seeds := seeds_a }
              init_vault_a :=
                { account := vault_a.key, mint := mint_a.key, owner := pool.key }
              create_vault_b :=
                { new_account := vault_b.key, space := TokenAccountLEN
                  owner := TOKEN_PROGRAM, funder := payer.key
                  signer_seeds := seeds_b }
              init_vault_b :=
                { account := vault_b.key, mint := mint_b.key, owner := pool.key } }
  | _ => .error .NotEnoughAccountKeys

/-- The overall effect of one request: either the initialization effect or
the swap's transfer effect. -/
inductive Effect where
  | init (e : InitEffect)
  | swap (t : TransferEffect)
deriving DecidableEq

/-- The pool record written by an effect, if any: only an initialization
writes the pool record; the swap path only takes the read borrow. -/
def poolWrite : Effect → Option PoolRec
  | .init e => some e.pool_record
  | .swap _ => none

/-- The dispatcher `process`: splits off the first payload byte as the
opcode, routing 0 to `process_init` with the rest of the payload and 1 to
`process_swap`; an empty payload or any other opcode fails with
`InvalidInstructionData`. -/
def process (fpa : Pubkey → Pubkey → Pubkey × Nat) (accounts : List AccountInfo)
    (data : List Nat) (instruction_sysvar : Instructions) :
    Except ProgramError Effect :=
  match data with
  | [] => .error .InvalidInstructionData
  | disc :: rest =>
    if disc = 0 then (process_init fpa accounts rest).map .init
    else if disc = 1 then (process_swap accounts instruction_sysvar).map .swap
    else .error .InvalidInstructionData

section Fixtures

/-- Concrete base-mint identity used in the concrete scenarios below. -/
def kMintA : Pubkey := List.replicate 32 3

/-- Concrete quote-mint identity. -/
def kMintB : Pubkey := List.replicate 32 4

/-- A concrete instance of the platform's address derivation, used to
evaluate the initializer on concrete inputs. -/
def fpa0 : Pubkey → Pubkey → Pubkey × Nat :=
  fun a b => (List.replicate 32 ((a.headD 0 + b.headD 0) % 256), 254)

/-- The pool identity `fpa0` derives for (kMintA, kMintB). -/
def kPool : Pubkey := List.replicate 32 7

/-- The vault identity `fpa0` derives for (kPool, kMintA). -/
def kVaultA : Pubkey := List.replicate 32 10

/-- The vault identity `fpa0` derives for (kPool, kMintB). -/
def kVaultB : Pubkey := List.replicate 32 11

/-- A concrete user identity. -/
def kUser : Pubkey := List.replicate 32 6

/-- A concrete output destination identity. -/
def kUserOut : Pubkey := List.replicate 32 12

/-- The pool record the initializer writes in the concrete scenario: rate
10 ^ 9, the derived vaults, and seeds kMintA, kMintB, bump 254. -/
def rec0 : PoolRec :=
  { usdc_atoms_per_sol := 1000000000, vault_a := kVaultA, vault_b := kVaultB,
    pool_seeds := kMintA ++ kMintB ++ [254] }

/-- An account with the given key and empty data. -/
def acct (k : Pubkey) : AccountInfo := { key := k, data := [] }

/-- The pool account at swap time: its stored bytes are the image of rec0. -/
def poolAcct : AccountInfo := { key := kPool, data := rec0.toBytes }

/-- The 7 swap accounts in order: payer, pool, destination, base vault,
quote vault, introspection register, token service. -/
def swapAccounts : List AccountInfo :=
  [acct kUser, poolAcct, acct kUserOut, acct kVaultA, acct kVaultB,
   acct (List.replicate 32 13), acct TOKEN_PROGRAM]

/-- A deposit of 10 ^ 9 base atoms into kVaultA: a token-service transfer
whose destination (account index 1) is the base vault. -/
def goodPrev : IntrospectedInstruction :=
  { program_id := TOKEN_PROGRAM, accounts := [kUser, kVaultA, kUser],
    data := TRANSFER_DISC :: natToLeBytes 8 1000000000 }

/-- The swap instruction itself as seen through the register. -/
def currSwapIx : IntrospectedInstruction :=
  { program_id := ID, accounts := [], data := [1] }

/-- A well-formed register: the deposit at index 0, the swap at index 1. -/
def goodSysvar : Instructions :=
  { current_index := 1, list := [goodPrev, currSwapIx] }

/-- The 8 initializer accounts in order: payer, pool, vault A, vault B,
mint A, mint B, account-creation service, token service. -/
def initAccounts : List AccountInfo :=
  [acct kUser, acct kPool, acct kVaultA, acct kVaultB, acct kMintA, acct kMintB,
   acct (List.replicate 32 0), acct TOKEN_PROGRAM]

/-- Initializer payload: the rate 10 ^ 9 in little-endian bytes. -/
def initData : List Nat := natToLeBytes 8 1000000000

/-- A register whose current index is 0: the swap is the first instruction
of its transaction. -/
def idx0Sysvar : Instructions := { current_index := 0, list := [currSwapIx] }

/-- A deposit-shaped instruction targeting a program other than the token
service. -/
def wrongServicePrev : IntrospectedInstruction :=
  { program_id := List.replicate 32 99, accounts := [kUser, kVaultA, kUser],
    data := TRANSFER_DISC :: natToLeBytes 8 1000000000 }

/-- A register whose preceding instruction targets the wrong service. -/
def wrongServiceSysvar : Instructions :=
  { current_index := 1, list := [wrongServicePrev, currSwapIx] }

/-- A current instruction whose declared target is not this program. -/
def badCurrIx : IntrospectedInstruction :=
  { program_id := List.replicate 32 99, accounts := [], data := [1] }

/-- A register whose current instruction declares a foreign target. -/
def badCurrSysvar : Instructions :=
  { current_index := 1, list := [goodPrev, badCurrIx] }

/-- The transfer the concrete swap scenario produces: 10 ^ 9 quote atoms
from kVaultB to kUserOut, signed with the stored seeds. -/
def transfer0 : TransferEffect :=
  { source := kVaultB, dest := kUserOut, authority := kPool, amount := 1000000000,
    signer_seeds := [kMintA, kMintB, [254]] }

/-- The full effect of the concrete initialization scenario. -/
def initEffect0 : InitEffect :=
  { create_pool := { new_account := kPool, space := Pool.LEN, owner := ID, funder := kUser,
                     signer_seeds := [kMintA, kMintB, [254]] },
    pool_record := rec0,
    create_vault_a := { new_account := kVaultA, space := TokenAccountLEN,
                        owner := TOKEN_PROGRAM, funder := kUser,
                        signer_seeds := [kPool, kMintA, [254]] },
    init_vault_a := { account := kVaultA, mint := kMintA, owner := kPool },
    create_vault_b := { new_account := kVaultB, space := TokenAccountLEN,
                        owner := TOKEN_PROGRAM, funder := kUser,
                        signer_seeds := [kPool, kMintB, [254]] },
    init_vault_b := { account := kVaultB, mint := kMintB, owner := kPool } }

end Fixtures

/-- Little-endian decoding of a byte list is bounded by 256 to its length. -/
theorem leBytesToNat_lt (l : List Nat) : leBytesToNat l < 256 ^ l.length := by
  induction l with
  | nil => simp [leBytesToNat]
  | cons b rest ih =>
    simp only [leBytesToNat, List.length_cons, pow_succ]
    have hb : b % 256 < 256 := Nat.mod_lt _ (by norm_num)
    calc b % 256 + 256 * leBytesToNat rest
        ≤ 255 + 256 * leBytesToNat rest := by omega
      _ < 256 * (leBytesToNat rest + 1) := by omega
      _ ≤ 256 * 256 ^ rest.length := by
          have hstep : leBytesToNat rest + 1 ≤ 256 ^ rest.length := ih
          exact Nat.mul_le_mul_left _ hstep
      _ = 256 ^ rest.length * 256 := by ring

/-- An amount accepted by the preceding-instruction validator is a 64-bit
value: it is decoded from at most 8 bytes. -/
theorem validate_ok_lt (p : IntrospectedInstruction) (v : Pubkey) (a : Nat)
    (h : validate_prev_ix p v = .ok a) : a < 2 ^ 64 := by
  unfold validate_prev_ix at h
  split at h
  · exact absurd h (by simp)
  · split at h
    · exact absurd h (by simp)
    · split at h
      · exact absurd h (by simp)
      · split at h
        · exact absurd h (by simp)
        · have hle : ((p.data.drop 1).take 8).length ≤ 8 := by
            simp [List.length_take]
          have hlt : leBytesToNat ((p.data.drop 1).take 8) < 256 ^ 8 := by
            calc leBytesToNat ((p.data.drop 1).take 8)
                < 256 ^ ((p.data.drop 1).take 8).length := leBytesToNat_lt _
              _ ≤ 256 ^ 8 := Nat.pow_le_pow_right (by norm_num) hle
          simp only [Except.ok.injEq] at h
          rw [← h]
          calc leBytesToNat ((p.data.drop 1).take 8) < 256 ^ 8 := hlt
            _ = 2 ^ 64 := by norm_num

/-- When every guard before the rate conversion passes, the swap reduces to
the conversion match on the 128-bit product. -/
theorem process_swap_reaches_conversion
    (p0 pool user_out va vb sys tok : AccountInfo) (sysvar : Instructions)
    (r : PoolRec) (prev : IntrospectedInstruction) (amount_in : Nat)
    (hrec : Pool.from_account pool.data = .ok r)
    (hva : va.key = r.vault_a) (hvb : vb.key = r.vault_b)
    (hidx : sysvar.current_index ≠ 0)
    (hcurr : (sysvar.deserialize_instruction_unchecked sysvar.current_index).program_id = ID)
    (hload : sysvar.load_instruction_at (sysvar.current_index - 1) = .ok prev)
    (hval : validate_prev_ix prev va.key = .ok amount_in) :
    process_swap [p0, pool, user_out, va, vb, sys, tok] sysvar =
      match ((u128_checked_mul amount_in r.usdc_atoms_per_sol).map
          (fun x => x / 1000000000)).map u64_try_from with
      | some (some amount_out) =>
        .ok { source := vb.key, dest := user_out.key, authority := pool.key,
              amount := amount_out,
              signer_seeds := [r.pool_seeds.take 32, (r.pool_seeds.drop 32).take 32,
                (r.pool_seeds.drop 64).take 1] }
      | _ => .error IntrospectardioError.LargeOrder.toProgramError := by
  simp only [process_swap, hrec]
  rw [if_neg (by simp [hva]), if_neg (by simp [hvb]), if_neg (by simp [hidx]),
    if_neg (by simp [hcurr]), hload]
  simp only [hval]

/-- A successful swap came through the pool read, the vault checks, and the
stored-seed reconstruction: the transfer's fields are determined by the
decoded record and the account list. -/
theorem process_swap_ok_inv
    (p0 pool user_out va vb sys tok : AccountInfo) (sysvar : Instructions)
    (t : TransferEffect)
    (h : process_swap [p0, pool, user_out, va, vb, sys, tok] sysvar = .ok t) :
    ∃ r, Pool.from_account pool.data = .ok r ∧ va.key = r.vault_a ∧ vb.key = r.vault_b ∧
      t.authority = pool.key ∧ t.source = vb.key ∧ t.dest = user_out.key ∧
      t.signer_seeds = [r.pool_seeds.take 32, (r.pool_seeds.drop 32).take 32,
        (r.pool_seeds.drop 64).take 1] := by
  simp only [process_swap] at h
  repeat' split at h
  all_goals simp at h
  rename_i x0 pd hrec hva2 hvb2 hidx2 hcurr2 d prev hload g amt hval k l hmatch
  subst h
  exact ⟨pd, hrec, not_ne_iff.1 hva2, not_ne_iff.1 hvb2, rfl, rfl, rfl, rfl⟩

/-- A successful initialization came through the three derivation checks,
and its effect record is fully determined by the accounts, the payload and
the derivation function. -/
theorem process_init_ok_inv
    (fpa : Pubkey → Pubkey → Pubkey × Nat)
    (payer pool va vb ma mb sp tp : AccountInfo) (data : List Nat) (e : InitEffect)
    (h : process_init fpa [payer, pool, va, vb, ma, mb, sp, tp] data = .ok e) :
    8 ≤ data.length ∧
    pool.key = (fpa ma.key mb.key).1 ∧
    va.key = (fpa pool.key ma.key).1 ∧
    vb.key = (fpa pool.key mb.key).1 ∧
    e = { create_pool := { new_account := pool.key, space := Pool.LEN, owner := ID,
                           funder := payer.key,
                           signer_seeds := [ma.key, mb.key, [(fpa ma.key mb.key).2]] },
          pool_record := { usdc_atoms_per_sol := leBytesToNat (data.take 8),
                           vault_a := va.key, vault_b := vb.key,
                           pool_seeds := ma.key ++ mb.key ++ [(fpa ma.key mb.key).2] },
          create_vault_a := { new_account := va.key, space := TokenAccountLEN,
                              owner := TOKEN_PROGRAM, funder := payer.key,
                              signer_seeds := [pool.key, ma.key, [(fpa pool.key ma.key).2]] },
          init_vault_a := { account := va.key, mint := ma.key, owner := pool.key },
          create_vault_b := { new_account := vb.key, space := TokenAccountLEN,
                              owner := TOKEN_PROGRAM, funder := payer.key,
                              signer_seeds := [pool.key, mb.key, [(fpa pool.key mb.key).2]] },
          init_vault_b := { account := vb.key, mint := mb.key, owner := pool.key } } := by
  simp only [process_init] at h
  repeat' split at h
  all_goals injection h
  rename_i hlen hpool hva2 hvb2 h2
  exact ⟨by omega, not_ne_iff.1 hpool, not_ne_iff.1 hva2, not_ne_iff.1 hvb2, h2.symm⟩

/-- Splitting a 65-byte seed block built from two 32-byte keys and a bump
byte recovers its three components. -/
theorem seeds_roundtrip (ma mb : Pubkey) (bump : Nat)
    (hma : ma.length = 32) (hmb : mb.length = 32) :
    (ma ++ mb ++ [bump]).take 32 = ma ∧
    ((ma ++ mb ++ [bump]).drop 32).take 32 = mb ∧
    ((ma ++ mb ++ [bump]).drop 64).take 1 = [bump] := by
  refine ⟨?_, ?_, ?_⟩
  · rw [List.append_assoc, List.take_left' hma]
  · rw [List.append_assoc, List.drop_left' hma, List.take_left' hmb]
  · have hlen : (ma ++ mb).length = 64 := by simp [hma, hmb]
    rw [List.drop_left' hlen]
    rfl

/-- C1: whenever a swap reaches the rate conversion, it computes the exact
truncating quotient floor of amount_in times rate over 10 ^ 9 (Nat division
drops the remainder, never crediting it to the requester; the product is
exact because the model checks it against 2 ^ 128 exactly as the 128-bit
checked multiplication does); if that quotient fits in 64 bits the transfer
carries exactly it, and if it does not, the swap fails with the
order-too-large error (LargeOrder) and no transfer effect is produced.
A 128-bit product overflow also lands in the error case, and such an
overflow forces the quotient above 2 ^ 64, so failure happens exactly when
the quotient does not fit in 64 bits. -/
theorem swap_rate_conversion
    (p0 pool user_out va vb sys tok : AccountInfo) (sysvar : Instructions)
    (r : PoolRec) (prev : IntrospectedInstruction) (amount_in : Nat)
    (hrec : Pool.from_account pool.data = .ok r)
    (hva : va.key = r.vault_a) (hvb : vb.key = r.vault_b)
    (hidx : sysvar.current_index ≠ 0)
    (hcurr : (sysvar.deserialize_instruction_unchecked sysvar.current_index).program_id = ID)
    (hload : sysvar.load_instruction_at (sysvar.current_index - 1) = .ok prev)
    (hval : validate_prev_ix prev va.key = .ok amount_in) :
    (amount_in * r.usdc_atoms_per_sol / 1000000000 < 2 ^ 64 →
      process_swap [p0, pool, user_out, va, vb, sys, tok] sysvar =
        .ok { source := vb.key, dest := user_out.key, authority := pool.key,
              amount := amount_in * r.usdc_atoms_per_sol / 1000000000,
              signer_seeds := [r.pool_seeds.take 32, (r.pool_seeds.drop 32).take 32,
                (r.pool_seeds.drop 64).take 1] }) ∧
    (2 ^ 64 ≤ amount_in * r.usdc_atoms_per_sol / 1000000000 →
      process_swap [p0, pool, user_out, va, vb, sys, tok] sysvar =
        .error IntrospectardioError.LargeOrder.toProgramError) := by
  have hred := process_swap_reaches_conversion p0 pool user_out va vb sys tok sysvar r prev
    amount_in hrec hva hvb hidx hcurr hload hval
  constructor
  · intro hq
    rw [hred]
    have hprod : amount_in * r.usdc_atoms_per_sol < 2 ^ 128 := by
      have h1 : amount_in * r.usdc_atoms_per_sol < 2 ^ 64 * 1000000000 :=
        (Nat.div_lt_iff_lt_mul (by norm_num)).1 hq
      calc amount_in * r.usdc_atoms_per_sol < 2 ^ 64 * 1000000000 := h1
        _ < 2 ^ 128 := by norm_num
    simp only [u128_checked_mul, if_pos hprod, Option.map_some', u64_try_from, if_pos hq]
  · intro hq
    rw [hred]
    by_cases hprod : amount_in * r.usdc_atoms_per_sol < 2 ^ 128
    · simp only [u128_checked_mul, if_pos hprod, Option.map_some', u64_try_from]
      rw [if_neg (by omega)]
    · simp only [u128_checked_mul, if_neg hprod, Option.map_none']

/-- C1 witness: in the concrete scenario the swap of 10 ^ 9 base atoms at
rate 10 ^ 9 succeeds with exactly the truncating quotient as its amount. -/
theorem swap_rate_conversion_witness :
    process_swap swapAccounts goodSysvar =
      .ok { source := kVaultB, dest := kUserOut, authority := kPool,
            amount := 1000000000 * rec0.usdc_atoms_per_sol / 1000000000,
            signer_seeds := [rec0.pool_seeds.take 32, (rec0.pool_seeds.drop 32).take 32,
              (rec0.pool_seeds.drop 64).take 1] } :=
  (swap_rate_conversion (acct kUser) poolAcct (acct kUserOut) (acct kVaultA) (acct kVaultB)
    (acct (List.replicate 32 13)) (acct TOKEN_PROGRAM) goodSysvar rec0 goodPrev 1000000000
    (by decide) (by decide) (by decide) (by decide) (by decide) (by decide) (by decide)).1
    (by decide)

/-- C2: the preceding-instruction validator, invoked by every swap at
position at least 1, rejects a target other than the token service with the
wrong-service error, a payload shorter than 9 bytes with the
malformed-payload error, a first payload byte other than the transfer
opcode 3 with the unexpected-operation error, a destination account (index
1) other than the pool's stored base vault with the wrong-destination
error, and on success returns payload bytes 1 to 8 decoded little-endian. -/
theorem validate_prev_ix_spec (prev_ix : IntrospectedInstruction) (vault : Pubkey) :
    (prev_ix.program_id ≠ TOKEN_PROGRAM →
      validate_prev_ix prev_ix vault =
        .error IntrospectardioError.PrevIxNotTokenProgram.toProgramError) ∧
    (prev_ix.program_id = TOKEN_PROGRAM → prev_ix.data.length < 9 →
      validate_prev_ix prev_ix vault =
        .error IntrospectardioError.UnexpectedTokenProgramDataLen.toProgramError) ∧
    (prev_ix.program_id = TOKEN_PROGRAM → 9 ≤ prev_ix.data.length →
      prev_ix.data.getD 0 0 ≠ TRANSFER_DISC →
      validate_prev_ix prev_ix vault =
        .error IntrospectardioError.UnexpectedTokenProgramIx.toProgramError) ∧
    (prev_ix.program_id = TOKEN_PROGRAM → 9 ≤ prev_ix.data.length →
      prev_ix.data.getD 0 0 = TRANSFER_DISC → prev_ix.accounts.getD 1 [] ≠ vault →
      validate_prev_ix prev_ix vault =
        .error IntrospectardioError.UnexpectedTransferDest.toProgramError) ∧
    (prev_ix.program_id = TOKEN_PROGRAM → 9 ≤ prev_ix.data.length →
      prev_ix.data.getD 0 0 = TRANSFER_DISC → prev_ix.accounts.getD 1 [] = vault →
      validate_prev_ix prev_ix vault =
        .ok (leBytesToNat ((prev_ix.data.drop 1).take 8))) := by
  refine ⟨?_, ?_, ?_, ?_, ?_⟩
  · intro h1
    simp only [validate_prev_ix]
    rw [if_pos h1]
  · intro h1 h2
    simp only [validate_prev_ix]
    rw [if_neg (by simp [h1]), if_pos h2]
  · intro h1 h2 h3
    simp only [validate_prev_ix]
    rw [if_neg (by simp [h1]), if_neg (by omega), if_pos h3]
  · intro h1 h2 h3 h4
    simp only [validate_prev_ix]
    rw [if_neg (by simp [h1]), if_neg (by omega), if_neg (by simpa using h3), if_pos h4]
  · intro h1 h2 h3 h4
    simp only [validate_prev_ix]
    rw [if_neg (by simp [h1]), if_neg (by omega), if_neg (by simpa using h3),
      if_neg (by simpa using h4)]

/-- C2 witness: the concrete deposit instruction passes all four checks and
yields its little-endian amount. -/
theorem validate_prev_ix_spec_witness :
    validate_prev_ix goodPrev kVaultA = .ok (leBytesToNat ((goodPrev.data.drop 1).take 8)) :=
  (validate_prev_ix_spec goodPrev kVaultA).2.2.2.2 (by decide) (by decide) (by decide)
    (by decide)

/-- C3 counterexample: the rejection of a swap at transaction position 0
carries the same error value as the wrong-service rejection of a preceding
instruction targeting a foreign program, namely custom code 0
(PrevIxNotTokenProgram) in both cases, so the two error codes are not
distinct as the claim asserts. -/
theorem swap_first_position_same_code_cex :
    process_swap swapAccounts idx0Sysvar =
      .error IntrospectardioError.PrevIxNotTokenProgram.toProgramError ∧
    process_swap swapAccounts wrongServiceSysvar =
      .error IntrospectardioError.PrevIxNotTokenProgram.toProgramError ∧
    IntrospectardioError.PrevIxNotTokenProgram.toProgramError = .Custom 0 := by
  decide

/-- C3 amended: a swap executing as the first instruction of its
transaction fails, but with the reused wrong-service error variant
PrevIxNotTokenProgram (custom code 0), not with a code distinct from the
wrong-service rejection. -/
theorem swap_first_position_rejected
    (p0 pool user_out va vb sys tok : AccountInfo) (sysvar : Instructions) (r : PoolRec)
    (hrec : Pool.from_account pool.data = .ok r)
    (hva : va.key = r.vault_a) (hvb : vb.key = r.vault_b)
    (hidx : sysvar.current_index = 0) :
    process_swap [p0, pool, user_out, va, vb, sys, tok] sysvar =
      .error IntrospectardioError.PrevIxNotTokenProgram.toProgramError ∧
    IntrospectardioError.PrevIxNotTokenProgram.toProgramError = .Custom 0 := by
  constructor
  · simp only [process_swap, hrec]
    rw [if_neg (by simp [hva]), if_neg (by simp [hvb]), if_pos hidx]
  · rfl

/-- C3 amended witness: the concrete swap at position 0 is rejected with
custom code 0. -/
theorem swap_first_position_rejected_witness :
    process_swap swapAccounts idx0Sysvar =
      .error IntrospectardioError.PrevIxNotTokenProgram.toProgramError ∧
    IntrospectardioError.PrevIxNotTokenProgram.toProgramError = .Custom 0 :=
  swap_first_position_rejected (acct kUser) poolAcct (acct kUserOut) (acct kVaultA)
    (acct kVaultB) (acct (List.replicate 32 13)) (acct TOKEN_PROGRAM) idx0Sysvar rec0
    (by decide) (by decide) (by decide) (by decide)

/-- C4 counterexample: the fixed record size Pool.LEN, computed as
size_of on the declared repr(C) fields, is 152 bytes and not 145, because
the 145-byte field span is rounded up to the 8-byte alignment of the
128-bit rate field; a 145-byte stored buffer is rejected by both borrows
with the malformed-account error. -/
theorem pool_len_not_145 :
    Pool.LEN = 152 ∧ ¬ Pool.LEN = 145 ∧
    Pool.from_account (List.replicate 145 0) = .error .InvalidAccountData ∧
    Pool.from_account_mut (List.replicate 145 0) = .error .InvalidAccountData := by
  decide

/-- C4 amended: the Pool record's fixed size, used both when the pool
account is created and as the minimum length both borrows check, is
152 bytes, the 145 bytes of field data rounded up to the 8-byte struct
alignment; any shorter stored length fails both borrows with the
malformed-account error, and the 7 trailing padding bytes carry no meaning:
decoding ignores them entirely. -/
theorem pool_len_amended :
    Pool.LEN = 152 ∧
    (∀ d : List Nat, d.length < Pool.LEN →
      Pool.from_account d = .error .InvalidAccountData ∧
      Pool.from_account_mut d = .error .InvalidAccountData) ∧
    (∀ d pad1 pad2 : List Nat, d.length = 145 → pad1.length = 7 → pad2.length = 7 →
      Pool.from_account (d ++ pad1) = Pool.from_account (d ++ pad2)) ∧
    (∀ (fpa : Pubkey → Pubkey → Pubkey × Nat)
      (payer pool va vb ma mb sp tp : AccountInfo) (data : List Nat) (e : InitEffect),
      process_init fpa [payer, pool, va, vb, ma, mb, sp, tp] data = .ok e →
      e.create_pool.space = Pool.LEN) := by
  refine ⟨by decide, ?_, ?_, ?_⟩
  · intro d hd
    constructor
    · simp only [Pool.from_account]
      rw [if_pos hd]
    · simp only [Pool.from_account_mut]
      rw [if_pos hd]
  · intro d pad1 pad2 hd h1 h2
    have hLEN : Pool.LEN = 152 := by decide
    have hl1 : ¬ (d ++ pad1).length < Pool.LEN := by
      simp [hd, h1, hLEN]
    have hl2 : ¬ (d ++ pad2).length < Pool.LEN := by
      simp [hd, h2, hLEN]
    simp only [Pool.from_account]
    rw [if_neg hl1, if_neg hl2]
    have ht16 : ∀ pad : List Nat, (d ++ pad).take 16 = d.take 16 := by
      intro pad
      rw [List.take_append_eq_append_take]
      simp [hd]
    have hdrop : ∀ (n : Nat) (pad : List Nat), n ≤ 145 →
        (d ++ pad).drop n = d.drop n ++ pad := by
      intro n pad hn
      rw [List.drop_append_eq_append_drop]
      have hz : n - d.length = 0 := by omega
      simp [hz]
    have htake : ∀ (n m : Nat) (pad : List Nat), n + m ≤ 145 →
        ((d ++ pad).drop n).take m = (d.drop n).take m := by
      intro n m pad hnm
      rw [hdrop n pad (by omega), List.take_append_eq_append_take]
      have hld : (d.drop n).length = 145 - n := by simp [hd]
      have hz : m - (d.drop n).length = 0 := by omega
      rw [hz, List.take_zero, List.append_nil]
    congr 1
    rw [ht16, ht16, htake 16 32 pad1 (by norm_num), htake 16 32 pad2 (by norm_num),
      htake 48 32 pad1 (by norm_num), htake 48 32 pad2 (by norm_num),
      htake 80 65 pad1 (by norm_num), htake 80 65 pad2 (by norm_num)]
  · intro fpa payer pool va vb ma mb sp tp data e h
    obtain ⟨h1, h2, h3, h4, he⟩ :=
      process_init_ok_inv fpa payer pool va vb ma mb sp tp data e h
    rw [he]

/-- C4 amended witness: a 151-byte buffer is rejected, a 152-byte buffer
decodes independently of its 7 padding bytes, and the concrete
initialization creates the pool account at exactly Pool.LEN bytes. -/
theorem pool_len_amended_witness :
    Pool.from_account (List.replicate 151 0) = .error .InvalidAccountData ∧
    Pool.from_account (List.replicate 145 3 ++ List.replicate 7 9) =
      Pool.from_account (List.replicate 145 3 ++ List.replicate 7 0) ∧
    initEffect0.create_pool.space = Pool.LEN :=
  ⟨(pool_len_amended.2.1 (List.replicate 151 0) (by decide)).1,
   pool_len_amended.2.2.1 (List.replicate 145 3) (List.replicate 7 9) (List.replicate 7 0)
     (by decide) (by decide) (by decide),
   pool_len_amended.2.2.2 fpa0 (acct kUser) (acct kPool) (acct kVaultA) (acct kVaultB)
     (acct kMintA) (acct kMintB) (acct (List.replicate 32 0)) (acct TOKEN_PROGRAM)
     initData initEffect0 (by decide)⟩

/-- C5: a swap whose supplied base-vault or quote-vault identity differs
from the one stored in the pool record fails with the identity
(seed-mismatch) error InvalidSeeds; the error return means no transfer
effect is produced and no state is touched. -/
theorem swap_vault_substitution_rejected
    (p0 pool user_out va vb sys tok : AccountInfo) (sysvar : Instructions)
    (r : PoolRec) (hrec : Pool.from_account pool.data = .ok r) :
    (va.key ≠ r.vault_a →
      process_swap [p0, pool, user_out, va, vb, sys, tok] sysvar =
        .error .InvalidSeeds) ∧
    (vb.key ≠ r.vault_b →
      process_swap [p0, pool, user_out, va, vb, sys, tok] sysvar =
        .error .InvalidSeeds) := by
  constructor
  · intro hva
    simp only [process_swap, hrec, if_pos hva]
  · intro hvb
    by_cases hva : va.key = r.vault_a
    · simp only [process_swap, hrec]
      rw [if_neg (by simp [hva]), if_pos hvb]
    · simp only [process_swap, hrec, if_pos hva]

/-- C5 witness: substituting the user's account for the base vault in the
otherwise-valid concrete swap is rejected with InvalidSeeds. -/
theorem swap_vault_substitution_rejected_witness :
    process_swap [acct kUser, poolAcct, acct kUserOut, acct kUser, acct kVaultB,
      acct (List.replicate 32 13), acct TOKEN_PROGRAM] goodSysvar = .error .InvalidSeeds :=
  (swap_vault_substitution_rejected (acct kUser) poolAcct (acct kUserOut) (acct kUser)
    (acct kVaultB) (acct (List.replicate 32 13)) (acct TOKEN_PROGRAM) goodSysvar rec0
    (by decide)).1 (by decide)

/-- C6: given a well-sized payload, Initialize re-derives the pool identity
from the two mints and each vault identity from (pool, mint), and any
mismatch between a supplied identity and its re-derived expected identity
fails with the seed-mismatch error InvalidSeeds; the error return means no
account-creation effect is produced and nothing is written. -/
theorem init_derivation_checks
    (fpa : Pubkey → Pubkey → Pubkey × Nat)
    (payer pool va vb ma mb sp tp : AccountInfo) (data : List Nat)
    (hlen : 8 ≤ data.length) :
    (pool.key ≠ (fpa ma.key mb.key).1 →
      process_init fpa [payer, pool, va, vb, ma, mb, sp, tp] data =
        .error .InvalidSeeds) ∧
    (pool.key = (fpa ma.key mb.key).1 → va.key ≠ (fpa pool.key ma.key).1 →
      process_init fpa [payer, pool, va, vb, ma, mb, sp, tp] data =
        .error .InvalidSeeds) ∧
    (pool.key = (fpa ma.key mb.key).1 → va.key = (fpa pool.key ma.key).1 →
      vb.key ≠ (fpa pool.key mb.key).1 →
      process_init fpa [payer, pool, va, vb, ma, mb, sp, tp] data =
        .error .InvalidSeeds) := by
  refine ⟨?_, ?_, ?_⟩
  · intro h1
    simp only [process_init]
    rw [if_neg (by omega), if_pos h1]
  · intro h1 h2
    simp only [process_init]
    rw [if_neg (by omega), if_neg (by simp [h1]), if_pos h2]
  · intro h1 h2 h3
    simp only [process_init]
    rw [if_neg (by omega), if_neg (by simp [h1]), if_neg (by simp [h2]), if_pos h3]

/-- C6 witness: supplying a pool account other than the derived one in the
concrete initialization is rejected with InvalidSeeds. -/
theorem init_derivation_checks_witness :
    process_init fpa0 [acct kUser, acct kUserOut, acct kVaultA, acct kVaultB, acct kMintA,
      acct kMintB, acct (List.replicate 32 0), acct TOKEN_PROGRAM] initData =
      .error .InvalidSeeds :=
  (init_derivation_checks fpa0 (acct kUser) (acct kUserOut) (acct kVaultA) (acct kVaultB)
    (acct kMintA) (acct kMintB) (acct (List.replicate 32 0)) (acct TOKEN_PROGRAM) initData
    (by decide)).1 (by decide)

/-- C7: a swap whose current instruction, as read from the introspection
register at the current index, declares a target program other than this
program's identity fails with IncorrectProgramId; the statement holds for
every register content, in particular whatever instruction precedes, since
the check fires before the preceding instruction is inspected. -/
theorem swap_wrong_program_rejected
    (p0 pool user_out va vb sys tok : AccountInfo) (sysvar : Instructions) (r : PoolRec)
    (hrec : Pool.from_account pool.data = .ok r)
    (hva : va.key = r.vault_a) (hvb : vb.key = r.vault_b)
    (hidx : sysvar.current_index ≠ 0)
    (hcurr : (sysvar.deserialize_instruction_unchecked sysvar.current_index).program_id ≠ ID) :
    process_swap [p0, pool, user_out, va, vb, sys, tok] sysvar =
      .error .IncorrectProgramId := by
  simp only [process_swap, hrec]
  rw [if_neg (by simp [hva]), if_neg (by simp [hvb]), if_neg (by simp [hidx]),
    if_pos hcurr]

/-- C7 witness: the concrete register whose current instruction targets a
foreign program is rejected with IncorrectProgramId even though the
preceding deposit is valid. -/
theorem swap_wrong_program_rejected_witness :
    process_swap swapAccounts badCurrSysvar = .error .IncorrectProgramId :=
  swap_wrong_program_rejected (acct kUser) poolAcct (acct kUserOut) (acct kVaultA)
    (acct kVaultB) (acct (List.replicate 32 13)) (acct TOKEN_PROGRAM) badCurrSysvar rec0
    (by decide) (by decide) (by decide) (by decide) (by decide)

/-- C8: the pool record is written only by the Initialize opcode 0: any
successful request whose effect writes the pool record had opcode byte 0,
and every successful request under opcode 1 produces a swap effect that
writes no pool record at all, matching the swap path's read-only borrow of
the record; opcodes other than 0 and 1 are rejected outright, so no
mutation instruction exists. -/
theorem pool_record_written_only_by_init
    (fpa : Pubkey → Pubkey → Pubkey × Nat) (accounts : List AccountInfo)
    (data : List Nat) (sysvar : Instructions) :
    (∀ e, process fpa accounts data sysvar = .ok e → poolWrite e ≠ none →
      data.headD 1 = 0) ∧
    (∀ rest e, process fpa accounts (1 :: rest) sysvar = .ok e → poolWrite e = none) := by
  constructor
  · intro e h hw
    match data with
    | [] => simp [process] at h
    | disc :: rest =>
      by_cases h0 : disc = 0
      · simp [h0]
      · by_cases h1 : disc = 1
        · subst h1
          rw [show process fpa accounts (1 :: rest) sysvar =
              (process_swap accounts sysvar).map Effect.swap from rfl] at h
          rcases hs : process_swap accounts sysvar with err | t
          · rw [hs] at h; exact absurd h (by simp [Except.map])
          · rw [hs] at h
            have he : e = Effect.swap t := by
              have h2 : (Except.ok (Effect.swap t) : Except ProgramError Effect) =
                  Except.ok e := by
                simpa [Except.map] using h
              injection h2 with hx
              exact hx.symm
            rw [he] at hw
            simp [poolWrite] at hw
        · simp only [process] at h
          rw [if_neg h0, if_neg h1] at h
          exact absurd h (by simp)
  · intro rest e h
    rw [show process fpa accounts (1 :: rest) sysvar =
        (process_swap accounts sysvar).map Effect.swap from rfl] at h
    rcases hs : process_swap accounts sysvar with err | t
    · rw [hs] at h; exact absurd h (by simp [Except.map])
    · rw [hs] at h
      have he : e = Effect.swap t := by
        have h2 : (Except.ok (Effect.swap t) : Except ProgramError Effect) =
            Except.ok e := by
          simpa [Except.map] using h
        injection h2 with hx
        exact hx.symm
      rw [he]
      simp [poolWrite]

/-- C8 witness: the concrete successful swap request under opcode 1 writes
no pool record. -/
theorem pool_record_written_only_by_init_witness :
    poolWrite (Effect.swap transfer0) = none :=
  (pool_record_written_only_by_init fpa0 swapAccounts [1] goodSysvar).2 []
    (Effect.swap transfer0) (by decide)

/-- C9: every pool record written by Initialize has a rate below 2 ^ 64,
because the 8-byte little-endian payload rate is zero-extended to 128 bits;
every amount the preceding-instruction validator accepts is below 2 ^ 64;
and for any such pair the 128-bit checked multiplication succeeds with the
exact product, so the overflow branch of the order-too-large check is
unreachable on pools written by Initialize and only the 64-bit quotient
check can fire. -/
theorem init_rate_zero_extended
    (fpa : Pubkey → Pubkey → Pubkey × Nat)
    (payer pool va vb ma mb sp tp : AccountInfo) (data : List Nat) (e : InitEffect)
    (hinit : process_init fpa [payer, pool, va, vb, ma, mb, sp, tp] data = .ok e) :
    e.pool_record.usdc_atoms_per_sol < 2 ^ 64 ∧
    (∀ p v a, validate_prev_ix p v = .ok a → a < 2 ^ 64) ∧
    (∀ a, a < 2 ^ 64 →
      u128_checked_mul a e.pool_record.usdc_atoms_per_sol =
        some (a * e.pool_record.usdc_atoms_per_sol)) := by
  obtain ⟨hlen, hp, hva, hvb, he⟩ :=
    process_init_ok_inv fpa payer pool va vb ma mb sp tp data e hinit
  have hrate : e.pool_record.usdc_atoms_per_sol < 2 ^ 64 := by
    rw [he]
    have hl : (data.take 8).length ≤ 8 := by simp
    calc leBytesToNat (data.take 8) < 256 ^ (data.take 8).length := leBytesToNat_lt _
      _ ≤ 256 ^ 8 := Nat.pow_le_pow_right (by norm_num) hl
      _ = 2 ^ 64 := by norm_num
  refine ⟨hrate, validate_ok_lt, ?_⟩
  intro a ha
  unfold u128_checked_mul
  rw [if_pos]
  calc a * e.pool_record.usdc_atoms_per_sol
      ≤ (2 ^ 64 - 1) * (2 ^ 64 - 1) := Nat.mul_le_mul (by omega) (by omega)
    _ < 2 ^ 128 := by norm_num

/-- C9 witness: the concrete initialization writes a rate below 2 ^ 64 and
the checked multiplication by 7 succeeds exactly. -/
theorem init_rate_zero_extended_witness :
    initEffect0.pool_record.usdc_atoms_per_sol < 2 ^ 64 ∧
    u128_checked_mul 7 initEffect0.pool_record.usdc_atoms_per_sol =
      some (7 * initEffect0.pool_record.usdc_atoms_per_sol) := by
  have h := init_rate_zero_extended fpa0 (acct kUser) (acct kPool) (acct kVaultA)
    (acct kVaultB) (acct kMintA) (acct kMintB) (acct (List.replicate 32 0))
    (acct TOKEN_PROGRAM) initData initEffect0 (by decide)
  exact ⟨h.1, h.2.2 7 (by decide)⟩

/-- C10: for a pool created by a successful Initialize and later read
unchanged by a successful swap, the signer seeds the swap reconstructs from
the stored authority seeds (bytes 0 to 31, 32 to 63 and 64) are
byte-for-byte the seeds Initialize used to sign the pool account's creation,
namely base mint, quote mint and the pool bump returned by the derivation;
and the pool identity the swap names as authority is exactly the address
the derivation produced from those seeds, so re-deriving from the
reconstructed seeds yields the pool's own identity. -/
theorem init_swap_seeds_agree
    (fpa : Pubkey → Pubkey → Pubkey × Nat)
    (payer pool va vb ma mb sp tp : AccountInfo) (idata : List Nat) (e : InitEffect)
    (p0 poolS uo pva pvb sys tok : AccountInfo) (sysvar : Instructions) (t : TransferEffect)
    (hma : ma.key.length = 32) (hmb : mb.key.length = 32)
    (hinit : process_init fpa [payer, pool, va, vb, ma, mb, sp, tp] idata = .ok e)
    (hkey : poolS.key = pool.key)
    (hdata : Pool.from_account poolS.data = .ok e.pool_record)
    (hswap : process_swap [p0, poolS, uo, pva, pvb, sys, tok] sysvar = .ok t) :
    t.signer_seeds = e.create_pool.signer_seeds ∧
    t.signer_seeds = [ma.key, mb.key, [(fpa ma.key mb.key).2]] ∧
    t.authority = pool.key ∧
    pool.key = (fpa ma.key mb.key).1 := by
  obtain ⟨hlen, hpool, hva, hvb, he⟩ :=
    process_init_ok_inv fpa payer pool va vb ma mb sp tp idata e hinit
  obtain ⟨r, hr, hva2, hvb2, hauth, hsrc, hdest, hseeds⟩ :=
    process_swap_ok_inv p0 poolS uo pva pvb sys tok sysvar t hswap
  rw [hdata] at hr
  have hrec : e.pool_record = r := by
    injection hr
  have hseeds2 : e.pool_record.pool_seeds = ma.key ++ mb.key ++ [(fpa ma.key mb.key).2] := by
    rw [he]
  obtain ⟨h1, h2, h3⟩ := seeds_roundtrip ma.key mb.key (fpa ma.key mb.key).2 hma hmb
  have hfinal : t.signer_seeds = [ma.key, mb.key, [(fpa ma.key mb.key).2]] := by
    rw [hseeds, ← hrec, hseeds2, h1, h2, h3]
  refine ⟨?_, hfinal, by rw [hauth, hkey], hpool⟩
  rw [hfinal, he]

/-- C10 witness: in the concrete end-to-end scenario the swap's signer
seeds equal the creation seeds kMintA, kMintB, bump 254, and the authority
is the derived pool identity. -/
theorem init_swap_seeds_agree_witness :
    transfer0.signer_seeds = initEffect0.create_pool.signer_seeds ∧
    transfer0.signer_seeds = [kMintA, kMintB, [(fpa0 kMintA kMintB).2]] ∧
    transfer0.authority = kPool ∧
    kPool = (fpa0 kMintA kMintB).1 :=
  init_swap_seeds_agree fpa0 (acct kUser) (acct kPool) (acct kVaultA) (acct kVaultB)
    (acct kMintA) (acct kMintB) (acct (List.replicate 32 0)) (acct TOKEN_PROGRAM)
    initData initEffect0 (acct kUser) poolAcct (acct kUserOut) (acct kVaultA)
    (acct kVaultB) (acct (List.replicate 32 13)) (acct TOKEN_PROGRAM) goodSysvar transfer0
    (by decide) (by decide) (by decide) (by decide) (by decide) (by decide)

end Introspectardio
